import Mathlib

/-!
Verification of the Lua binding layer in src/lmdb.c against its design
specification.  The binding wraps four native handle kinds (environment,
transaction, dbi/table, cursor) and is embedded here shallowly: each
userdata struct becomes a record, each lua_CFunction becomes a pure
function over that record, parameterised over the behaviour of the
external liblmdb engine, and instrumented with an event trace recording
native-engine invocations, registry anchor acquisition/release
(luaL_ref / luaL_unref) and metatable (class tag) installation.
-/

namespace LmdbSpec

/-- Byte strings as exchanged with Lua through luaL_checklstring and
lua_pushlstring: arbitrary byte sequences, length carried explicitly, so
embedded zero bytes are preserved. -/
abbrev Bytes := List Nat

/-- The fail pseudo-type documented at the top of src/lmdb.c: the triple
nil, error string, integer code.  The leading nil is implicit in the
shape; the record carries the message and the code. -/
structure Fail where
  msg : String
  code : Int
deriving DecidableEq, Repr

/-- Sample code-to-message translator standing in for the engine's
mdb_strerror in witnesses; theorems quantify over an arbitrary
translator. -/
def mdb_strerror_model (e : Int) : String :=
  if e = 0 then "MDB_SUCCESS: Successful return"
  else if e = -30798 then "MDB_NOTFOUND: No matching key/data pair found"
  else if e = 22 then "Invalid argument"
  else "MDB unknown error"

/-- lmdb_pusherror (src/lmdb.c:91-99): pushes nil, mdb_strerror(err), err.
The message comes solely from the translator and the code is forwarded
unchanged. -/
def lmdb_pusherror (strerror : Int → String) (err : Int) : Fail :=
  { msg := strerror err, code := err }

def MDB_SUCCESS : Int := 0

def MDB_NOTFOUND : Int := -30798

def EINVAL : Int := 22

def LUA_NOREF : Int := -2

def MDB_FIRST : Int := 0

def MDB_NEXT : Int := 8

/-- lmdb_env userdata (src/lmdb.c:45-48): the MDB_env pointer (none models
NULL) together with the registry reference stored in the native userctx
slot (none models an unset userctx). -/
structure lmdb_env where
  env : Option Nat
  userctx : Option Int
deriving DecidableEq, Repr

/-- lmdb_txn userdata (src/lmdb.c:51-55): MDB_txn pointer and the registry
reference anchoring the environment. -/
structure lmdb_txn where
  txn : Option Nat
  env_ref : Int
deriving DecidableEq, Repr

/-- lmdb_dbi userdata (src/lmdb.c:58-63): the MDB_dbi integer identifier
(0 after close), the cached MDB_txn pointer of the owning transaction,
and the registry reference anchoring that transaction. -/
structure lmdb_dbi where
  dbi : Nat
  txn : Option Nat
  txn_ref : Int
deriving DecidableEq, Repr

/-- lmdb_cursor userdata (src/lmdb.c:66-70): MDB_cursor pointer and the
registry reference anchoring the dbi. -/
structure lmdb_cursor where
  cursor : Option Nat
  dbi_ref : Int
deriving DecidableEq, Repr

/-- Observable side effects of one binding call: an invocation of the
native engine (recording whether the handle resource passed was live,
that is non-null / non-zero), installation of a class metatable tag, and
acquisition or release of a registry anchor. -/
inductive Event where
  | nativeCall (name : String) (liveArg : Bool)
  | tagInstall (cls : String)
  | refAcquire (tok : Nat)
  | refRelease (tok : Int)
deriving DecidableEq, Repr

def Event.isNative : Event → Bool
  | Event.nativeCall _ _ => true
  | _ => false

def Event.isAcquire : Event → Bool
  | Event.refAcquire _ => true
  | _ => false

def Event.isRelease : Event → Bool
  | Event.refRelease _ => true
  | _ => false

def Event.isTag : Event → Bool
  | Event.tagInstall _ => true
  | _ => false

def countNative (es : List Event) : Nat := (es.filter Event.isNative).length

def countAcquire (es : List Event) : Nat := (es.filter Event.isAcquire).length

def countRelease (es : List Event) : Nat := (es.filter Event.isRelease).length

def countTag (es : List Event) : Nat := (es.filter Event.isTag).length

/-- Result of calls that on success push the handle itself (chaining
convention) and otherwise the fail triple. -/
inductive SelfRet where
  | self
  | err (f : Fail)
deriving DecidableEq, Repr

def SelfRet.isErr : SelfRet → Bool
  | SelfRet.err _ => true
  | _ => false

/-- Result of dbi get: the value string or the fail triple. -/
inductive GetRet where
  | val (v : Bytes)
  | err (f : Fail)
deriving DecidableEq, Repr

def GetRet.isErr : GetRet → Bool
  | GetRet.err _ => true
  | _ => false

/-- Result of integer-returning calls (txn id, cursor count). -/
inductive IntRet where
  | val (n : Int)
  | err (f : Fail)
deriving DecidableEq, Repr

def IntRet.isErr : IntRet → Bool
  | IntRet.err _ => true
  | _ => false

/-- Result of stat / info: a statistics table or the fail triple. -/
inductive TableRet where
  | table
  | err (f : Fail)
deriving DecidableEq, Repr

/-- Result of cursor get: a key/value pair or the fail triple. -/
inductive KVRet where
  | kv (k v : Bytes)
  | err (f : Fail)
deriving DecidableEq, Repr

/-- Result of txn commit: boolean true or the fail triple. -/
inductive CommitRet where
  | ok
  | fail (f : Fail)
deriving DecidableEq, Repr

/-- lmdb_stat (src/lmdb.c:537-550): ret starts as EINVAL; only a live env
reaches mdb_env_stat; a dead env yields the EINVAL triple without any
native call. -/
def lmdb_stat (strerror : Int → String) (nativeStat : Nat → Int) (e : lmdb_env) :
    TableRet × List Event :=
  match e.env with
  | some r =>
    let ret := nativeStat r
    ((if ret = 0 then TableRet.table else TableRet.err (lmdb_pusherror strerror ret)),
     [Event.nativeCall "mdb_env_stat" true])
  | none => (TableRet.err (lmdb_pusherror strerror EINVAL), [])

/-- lmdb_info (src/lmdb.c:559-583): same guard shape as lmdb_stat. -/
def lmdb_info (strerror : Int → String) (nativeInfo : Nat → Int) (e : lmdb_env) :
    TableRet × List Event :=
  match e.env with
  | some r =>
    let ret := nativeInfo r
    ((if ret = 0 then TableRet.table else TableRet.err (lmdb_pusherror strerror ret)),
     [Event.nativeCall "mdb_env_info" true])
  | none => (TableRet.err (lmdb_pusherror strerror EINVAL), [])

/-- lmdb_copy (src/lmdb.c:342-354): on a live env it invokes mdb_env_copy
but discards the returned status and pushes self unconditionally; on a
dead env it returns the EINVAL triple without a native call. -/
def lmdb_copy (strerror : Int → String) (nativeCopy : Nat → Int) (e : lmdb_env) :
    SelfRet × List Event :=
  match e.env with
  | some r =>
    let _ret := nativeCopy r
    (SelfRet.self, [Event.nativeCall "mdb_env_copy" true])
  | none => (SelfRet.err (lmdb_pusherror strerror EINVAL), [])

/-- lmdb_sync (src/lmdb.c:364-377): same shape as lmdb_copy, the status of
mdb_env_sync is likewise discarded on the live path. -/
def lmdb_sync (strerror : Int → String) (nativeSync : Nat → Bool → Int)
    (e : lmdb_env) (force : Bool) : SelfRet × List Event :=
  match e.env with
  | some r =>
    let _ret := nativeSync r force
    (SelfRet.self, [Event.nativeCall "mdb_env_sync" true])
  | none => (SelfRet.err (lmdb_pusherror strerror EINVAL), [])

/-- lmdb_txn_id (src/lmdb.c:629-635): no liveness check; always pushes the
integer mdb_txn_id(txn->txn), also when txn->txn is NULL. -/
def lmdb_txn_id (nativeId : Option Nat → Int) (t : lmdb_txn) :
    IntRet × List Event :=
  (IntRet.val (nativeId t.txn), [Event.nativeCall "mdb_txn_id" t.txn.isSome])

/-- lmdb_get (src/lmdb.c:845-858): no liveness check; always calls mdb_get
with the stored txn pointer and dbi identifier; MDB_SUCCESS pushes the
value, any other status is pushed as the fail triple. -/
def lmdb_get (strerror : Int → String)
    (nativeGet : Option Nat → Nat → Bytes → Int × Bytes)
    (d : lmdb_dbi) (key : Bytes) : GetRet × List Event :=
  let r := nativeGet d.txn d.dbi key
  ((if r.1 = 0 then GetRet.val r.2 else GetRet.err (lmdb_pusherror strerror r.1)),
   [Event.nativeCall "mdb_get" (d.dbi != 0)])

/-- lmdb_put (src/lmdb.c:869-884): no liveness check; always calls mdb_put,
pushing self on MDB_SUCCESS and the fail triple otherwise. -/
def lmdb_put (strerror : Int → String)
    (nativePut : Option Nat → Nat → Bytes → Bytes → Int)
    (d : lmdb_dbi) (key v : Bytes) : SelfRet × List Event :=
  let rc := nativePut d.txn d.dbi key v
  ((if rc = 0 then SelfRet.self else SelfRet.err (lmdb_pusherror strerror rc)),
   [Event.nativeCall "mdb_put" (d.dbi != 0)])

/-- lmdb_del (src/lmdb.c:894-907): no liveness check; always calls mdb_del. -/
def lmdb_del (strerror : Int → String)
    (nativeDel : Option Nat → Nat → Bytes → Int)
    (d : lmdb_dbi) (key : Bytes) : SelfRet × List Event :=
  let rc := nativeDel d.txn d.dbi key
  ((if rc = 0 then SelfRet.self else SelfRet.err (lmdb_pusherror strerror rc)),
   [Event.nativeCall "mdb_del" (d.dbi != 0)])

/-- lmdb_cursor_get (src/lmdb.c:1076-1091): the positioning operator is
optional and defaults to MDB_NEXT (luaL_optinteger(L, 2, MDB_NEXT)); no
liveness check is performed before calling mdb_cursor_get. -/
def lmdb_cursor_get (strerror : Int → String)
    (native : Option Nat → Int → Int × Bytes × Bytes)
    (c : lmdb_cursor) (op? : Option Int) : KVRet × List Event :=
  let op := op?.getD MDB_NEXT
  let r := native c.cursor op
  ((if r.1 = 0 then KVRet.kv r.2.1 r.2.2 else KVRet.err (lmdb_pusherror strerror r.1)),
   [Event.nativeCall "mdb_cursor_get" c.cursor.isSome])

/-- lmdb_cursor_put (src/lmdb.c:1103-1119): no liveness check. -/
def lmdb_cursor_put (strerror : Int → String)
    (native : Option Nat → Bytes → Bytes → Int → Int)
    (c : lmdb_cursor) (k v : Bytes) (flags? : Option Int) : SelfRet × List Event :=
  let rc := native c.cursor k v (flags?.getD 0)
  ((if rc = 0 then SelfRet.self else SelfRet.err (lmdb_pusherror strerror rc)),
   [Event.nativeCall "mdb_cursor_put" c.cursor.isSome])

/-- lmdb_cursor_del (src/lmdb.c:1128-1141): no liveness check. -/
def lmdb_cursor_del (strerror : Int → String)
    (native : Option Nat → Int → Int)
    (c : lmdb_cursor) (flags? : Option Int) : SelfRet × List Event :=
  let rc := native c.cursor (flags?.getD 0)
  ((if rc = 0 then SelfRet.self else SelfRet.err (lmdb_pusherror strerror rc)),
   [Event.nativeCall "mdb_cursor_del" c.cursor.isSome])

/-- lmdb_cursor_count (src/lmdb.c:1149-1162): no liveness check. -/
def lmdb_cursor_count (strerror : Int → String)
    (native : Option Nat → Int × Nat)
    (c : lmdb_cursor) : IntRet × List Event :=
  let r := native c.cursor
  ((if r.1 = 0 then IntRet.val (Int.ofNat r.2) else IntRet.err (lmdb_pusherror strerror r.1)),
   [Event.nativeCall "mdb_cursor_count" c.cursor.isSome])

/-- Result of env:txn_begin: a transaction userdata or the fail triple. -/
inductive BeginRet where
  | txnObj (t : lmdb_txn)
  | fail (f : Fail)
deriving DecidableEq, Repr

/-- Result of txn:dbi_open. -/
inductive DbiOpenRet where
  | dbiObj (d : lmdb_dbi)
  | fail (f : Fail)
deriving DecidableEq, Repr

/-- Result of dbi:cursor_open. -/
inductive CursorOpenRet where
  | cursorObj (c : lmdb_cursor)
  | fail (f : Fail)
deriving DecidableEq, Repr

/-- lmdb_txn_begin (src/lmdb.c:594-611): allocate the userdata, call
mdb_txn_begin with the (unchecked) env pointer; on failure return the
fail triple with neither metatable nor registry anchor; on success
install the LMDB.Txn tag and then anchor the environment under a fresh
registry token.  nativeBegin maps the env pointer to the status and the
fresh txn resource. -/
def lmdb_txn_begin (strerror : Int → String)
    (nativeBegin : Option Nat → Int × Nat)
    (e : lmdb_env) (tok : Nat) : BeginRet × List Event :=
  let r := nativeBegin e.env
  if r.1 = 0 then
    (BeginRet.txnObj { txn := some r.2, env_ref := Int.ofNat tok },
     [Event.nativeCall "mdb_txn_begin" e.env.isSome,
      Event.tagInstall "LMDB.Txn", Event.refAcquire tok])
  else
    (BeginRet.fail (lmdb_pusherror strerror r.1),
     [Event.nativeCall "mdb_txn_begin" e.env.isSome])

/-- lmdb_txn_close (src/lmdb.c:637-645): guarded on txn->txn; clears the
pointer, releases the environment anchor and marks it LUA_NOREF.  A
second call is a strict no-op. -/
def lmdb_txn_close (t : lmdb_txn) : lmdb_txn × List Event :=
  match t.txn with
  | some _ => ({ txn := none, env_ref := LUA_NOREF }, [Event.refRelease t.env_ref])
  | none => (t, [])

/-- lmdb_txn_commit (src/lmdb.c:657-668): calls mdb_txn_commit with the
(unchecked) txn pointer; on MDB_SUCCESS pushes true and runs
lmdb_txn_close, otherwise returns the fail triple and leaves the handle
untouched. -/
def lmdb_txn_commit (strerror : Int → String) (nativeCommit : Option Nat → Int)
    (t : lmdb_txn) : lmdb_txn × CommitRet × List Event :=
  let ret := nativeCommit t.txn
  if ret = 0 then
    let c := lmdb_txn_close t
    (c.1, CommitRet.ok, Event.nativeCall "mdb_txn_commit" t.txn.isSome :: c.2)
  else
    (t, CommitRet.fail (lmdb_pusherror strerror ret),
     [Event.nativeCall "mdb_txn_commit" t.txn.isSome])

/-- lmdb_txn_abort (src/lmdb.c:674-681): calls mdb_txn_abort with the
(unchecked, possibly NULL) txn pointer, then lmdb_txn_close; returns no
values. -/
def lmdb_txn_abort (t : lmdb_txn) : lmdb_txn × List Event :=
  let c := lmdb_txn_close t
  (c.1, Event.nativeCall "mdb_txn_abort" t.txn.isSome :: c.2)

/-- lmdb_txn_reset (src/lmdb.c:688-695): calls mdb_txn_reset with the
(unchecked) txn pointer and unconditionally pushes self; mdb_txn_reset
returns void so there is no error path at all. -/
def lmdb_txn_reset (t : lmdb_txn) : lmdb_txn × SelfRet × List Event :=
  (t, SelfRet.self, [Event.nativeCall "mdb_txn_reset" t.txn.isSome])

/-- lmdb_dbi_open (src/lmdb.c:725-747): allocate the userdata, call
mdb_dbi_open with the owning transaction's (unchecked) txn pointer; on
failure return the fail triple with neither tag nor anchor; on success
install the LMDB.Dbi tag, anchor the transaction, and cache its txn
pointer.  nativeDbiOpen maps the txn pointer to the status and the dbi
identifier. -/
def lmdb_dbi_open (strerror : Int → String)
    (nativeDbiOpen : Option Nat → Int × Nat)
    (t : lmdb_txn) (tok : Nat) : DbiOpenRet × List Event :=
  let r := nativeDbiOpen t.txn
  if r.1 = 0 then
    (DbiOpenRet.dbiObj { dbi := r.2, txn := t.txn, txn_ref := Int.ofNat tok },
     [Event.nativeCall "mdb_dbi_open" t.txn.isSome,
      Event.tagInstall "LMDB.Dbi", Event.refAcquire tok])
  else
    (DbiOpenRet.fail (lmdb_pusherror strerror r.1),
     [Event.nativeCall "mdb_dbi_open" t.txn.isSome])

/-- lmdb_cursor_open (src/lmdb.c:959-974): allocate the userdata, call
mdb_cursor_open with the dbi's (unchecked) txn pointer and identifier;
on success anchor the dbi and then install the LMDB.Cursor tag (the
source performs the ref before the metatable here); on failure return
the fail triple with neither. -/
def lmdb_cursor_open (strerror : Int → String)
    (nativeCursorOpen : Option Nat → Nat → Int × Nat)
    (d : lmdb_dbi) (tok : Nat) : CursorOpenRet × List Event :=
  let r := nativeCursorOpen d.txn d.dbi
  if r.1 = 0 then
    (CursorOpenRet.cursorObj { cursor := some r.2, dbi_ref := Int.ofNat tok },
     [Event.nativeCall "mdb_cursor_open" (d.dbi != 0),
      Event.refAcquire tok, Event.tagInstall "LMDB.Cursor"])
  else
    (CursorOpenRet.fail (lmdb_pusherror strerror r.1),
     [Event.nativeCall "mdb_cursor_open" (d.dbi != 0)])

/-- lmdb_close (src/lmdb.c:239-253): guarded on env->env; releases the
userctx anchor if set, closes the native env and clears the pointer.  A
second call is a strict no-op. -/
def lmdb_close (e : lmdb_env) : lmdb_env × List Event :=
  match e.env with
  | some _ =>
    let unrefEv := match e.userctx with
      | some r => [Event.refRelease r]
      | none => []
    ({ env := none, userctx := none },
     unrefEv ++ [Event.nativeCall "mdb_env_close" true])
  | none => (e, [])

/-- lmdb_dbi_close (src/lmdb.c:811-835): guarded on dbi->dbi; when the
owning transaction is still live it calls mdb_dbi_close on the
environment, then zeroes the identifier and releases the transaction
anchor.  A second call is a strict no-op.  txnLive abstracts the
liveness test txn->txn performed through the registry lookup. -/
def lmdb_dbi_close (d : lmdb_dbi) (txnLive : Bool) : lmdb_dbi × List Event :=
  if d.dbi != 0 then
    let nat := if txnLive then [Event.nativeCall "mdb_dbi_close" true] else []
    ({ dbi := 0, txn := d.txn, txn_ref := LUA_NOREF },
     nat ++ [Event.refRelease d.txn_ref])
  else (d, [])

/-- lmdb_cursor_close (src/lmdb.c:987-999): guarded on cursor->cursor;
closes the native cursor, releases the dbi anchor and clears both
fields.  A second call is a strict no-op. -/
def lmdb_cursor_close (c : lmdb_cursor) : lmdb_cursor × List Event :=
  match c.cursor with
  | some _ =>
    ({ cursor := none, dbi_ref := LUA_NOREF },
     [Event.nativeCall "mdb_cursor_close" true, Event.refRelease c.dbi_ref])
  | none => (c, [])

/-- lmdb_msg (src/lmdb.c:261-279): the trampoline handed to
mdb_reader_list.  It resolves the anchored callback, invokes it with the
message line under pcall, and returns 0 on success and -1 (the abort
signal) when the callback raised.  cb models the pcall outcome. -/
def lmdb_msg (cb : String → Bool) (msg : String) : Int :=
  if cb msg then 0 else -1

/-- Modelled from the spec: the native mdb_reader_list iteration of the
vendored liblmdb engine, which is not under src/.  Per the callback
bridge design, each diagnostic line is handed to the trampoline; a
negative trampoline return aborts iteration and is returned as the
status of the whole call, otherwise iteration runs to completion with
status 0. -/
def mdb_reader_list_model : List String → (String → Int) → Int
  | [], _ => 0
  | l :: rest, f =>
    let rc := f l
    if rc < 0 then rc else mdb_reader_list_model rest f

/-- lmdb_reader_list (src/lmdb.c:289-310): anchors the callback under a
fresh registry token, runs the native iteration with the trampoline,
releases the anchor exactly once immediately after the native call
returns, then maps status 0 to self and any other status to the fail
triple. -/
def lmdb_reader_list (strerror : Int → String) (lines : List String)
    (cb : String → Bool) (tok : Nat) : SelfRet × List Event :=
  let ret := mdb_reader_list_model lines (lmdb_msg cb)
  let ev := [Event.refAcquire tok, Event.nativeCall "mdb_reader_list" true,
             Event.refRelease (Int.ofNat tok)]
  ((if ret = 0 then SelfRet.self else SelfRet.err (lmdb_pusherror strerror ret)), ev)

/-- Modelled from the spec: the engine's key-value contents of one dbi as
seen within one transaction (the vendored liblmdb B+tree is not under
src/); an association list where a later put shadows earlier entries,
keys and values being opaque byte strings. -/
def Store := List (Bytes × Bytes)

/-- Modelled from the spec: mdb_put with flags 0 on an active write
transaction stores the full value under the key. -/
def storePut (s : Store) (k v : Bytes) : Store := (k, v) :: s

/-- Modelled from the spec: mdb_get returns the stored value for the key
byte-for-byte, or reports absence. -/
def storeGet : Store → Bytes → Option Bytes
  | [], _ => none
  | (k0, v0) :: rest, k => if k0 = k then some v0 else storeGet rest k

/-- mdb_get implemented over the modelled store: status MDB_SUCCESS with
the value when present, MDB_NOTFOUND otherwise. -/
def nativeGetOf (s : Store) : Option Nat → Nat → Bytes → Int × Bytes :=
  fun _ _ k =>
    match storeGet s k with
    | some v => (0, v)
    | none => (MDB_NOTFOUND, [])

/-- Position state of a native cursor over the ordered, duplicate-free
entries of a table: pos counts the entries already consumed. -/
structure CursorState where
  entries : List (Bytes × Bytes)
  pos : Nat
deriving DecidableEq, Repr

/-- Modelled from the spec: the vendored engine's mdb_cursor_get for the
MDB_FIRST and MDB_NEXT positioning operators over a duplicate-free
table; past the last entry NEXT reports MDB_NOTFOUND and leaves the
position unchanged. -/
def mdb_cursor_get_model (st : CursorState) (op : Int) :
    (Int × Bytes × Bytes) × CursorState :=
  if op = MDB_FIRST then
    match st.entries[0]? with
    | some kv => ((0, kv.1, kv.2), { st with pos := 1 })
    | none => ((MDB_NOTFOUND, [], []), st)
  else if op = MDB_NEXT then
    match st.entries[st.pos]? with
    | some kv => ((0, kv.1, kv.2), { st with pos := st.pos + 1 })
    | none => ((MDB_NOTFOUND, [], []), st)
  else ((EINVAL, [], []), st)

/-- lmdb_cursor_get run against the modelled engine, threading the cursor
position; the operator defaults to MDB_NEXT exactly as in the binding.
A NULL cursor pointer is rejected by the engine with EINVAL. -/
def lmdb_cursor_get_run (strerror : Int → String) (c : lmdb_cursor)
    (st : CursorState) (op? : Option Int) : KVRet × CursorState :=
  let op := op?.getD MDB_NEXT
  match c.cursor with
  | some _ =>
    let r := mdb_cursor_get_model st op
    ((if r.1.1 = 0 then KVRet.kv r.1.2.1 r.1.2.2
      else KVRet.err (lmdb_pusherror strerror r.1.1)), r.2)
  | none => (KVRet.err (lmdb_pusherror strerror EINVAL), st)

/-- The lua_CFunctions registered in dbi_methods (src/lmdb.c:1235-1250),
as an enumeration; lmdb_dbi_close is registered both as close and as
__gc. -/
inductive CFun where
  | cmp
  | dcmp
  | put
  | del
  | get
  | stat
  | flags_query
  | drop
  | close
  | cursor_open
  | tostr
deriving DecidableEq, Repr

/-- dbi_methods (src/lmdb.c:1235-1250), in registration order: the name
flags is bound first to lmdb_dbi_flags (the query) and then to
lmdb_dbi_drop. -/
def dbi_methods : List (String × CFun) :=
  [("cmp", CFun.cmp), ("dcmp", CFun.dcmp), ("put", CFun.put), ("del", CFun.del),
   ("get", CFun.get), ("stat", CFun.stat), ("flags", CFun.flags_query),
   ("flags", CFun.drop), ("close", CFun.close), ("cursor_open", CFun.cursor_open),
   ("__gc", CFun.close), ("__tostring", CFun.tostr)]

/-- The metatable and its __index table built by auxiliar_newclass. -/
structure ClassTables where
  mt : List (String × CFun)
  it : List (String × CFun)
deriving DecidableEq, Repr

/-- lua_rawset on a table: the new binding for the key replaces any
existing one. -/
def rawset (t : List (String × CFun)) (k : String) (v : CFun) :
    List (String × CFun) :=
  (k, v) :: t.filter (fun p => p.1 ≠ k)

/-- Routing test of auxiliar_newclass: func->name[0] being an underscore
sends the entry to the metatable instead of the __index table. -/
def nameIsMeta (s : String) : Bool :=
  match s.data with
  | c :: _ => c = '_'
  | [] => false

/-- auxiliar_newclass (src/lmdb.c:1164-1184): walks the method list in
order, raw-setting each entry into the metatable (names starting with an
underscore) or the __index table (all others); a later entry with the
same name therefore overwrites an earlier one. -/
def auxiliar_newclass (funcs : List (String × CFun)) : ClassTables :=
  funcs.foldl
    (fun acc p =>
      if nameIsMeta p.1 then { acc with mt := rawset acc.mt p.1 p.2 }
      else { acc with it := rawset acc.it p.1 p.2 })
    { mt := [], it := [] }

/-- Lua table lookup (rawget) on the association-list representation. -/
def tableLookup : List (String × CFun) → String → Option CFun
  | [], _ => none
  | (k0, v) :: rest, k => if k0 = k then some v else tableLookup rest k

/-- Modelled from the spec: the vendored engine rejects commit of a NULL
transaction pointer with EINVAL and commits a live one; used as the
concrete engine in witnesses. -/
def nativeCommitOk : Option Nat → Int
  | some _ => 0
  | none => EINVAL

/-- Concrete closed handles used by witnesses. -/
def deadEnv : lmdb_env := { env := none, userctx := none }

def deadTxn : lmdb_txn := { txn := none, env_ref := -2 }

def deadDbi : lmdb_dbi := { dbi := 0, txn := none, txn_ref := -2 }

def deadCursor : lmdb_cursor := { cursor := none, dbi_ref := -2 }

/-- A live environment handle used by witnesses. -/
def liveEnv1 : lmdb_env := { env := some 1, userctx := none }

/-- A begin call that succeeds, producing txn resource 7. -/
def nativeBeginOk : Option Nat → Int × Nat := fun _ => (0, 7)

/-- A native open call that fails with EINVAL. -/
def nativeOpenFail : Option Nat → Int × Nat := fun _ => (EINVAL, 0)

/-- A native get that always reports MDB_NOTFOUND. -/
def notFoundGet : Option Nat → Nat → Bytes → Int × Bytes :=
  fun _ _ _ => (MDB_NOTFOUND, [])

/-- Helper: a callback that succeeds on every line lets the modelled
reader-list iteration run to completion with status 0. -/
theorem readerListModel_all_ok (cb : String → Bool) :
    ∀ lines : List String, (∀ l ∈ lines, cb l = true) →
      mdb_reader_list_model lines (lmdb_msg cb) = 0 := by
  intro lines h
  induction lines with
  | nil => rfl
  | cons a rest ih =>
    have ha : cb a = true := h a (by simp)
    have hrest : ∀ l ∈ rest, cb l = true := fun l hl => h l (by simp [hl])
    simp [mdb_reader_list_model, lmdb_msg, ha, ih hrest]

/-- Helper: the first failing callback invocation aborts the modelled
reader-list iteration with status -1. -/
theorem readerListModel_abort (cb : String → Bool) (l : String) (post : List String)
    (hl : cb l = false) :
    ∀ pre : List String, (∀ x ∈ pre, cb x = true) →
      mdb_reader_list_model (pre ++ l :: post) (lmdb_msg cb) = -1 := by
  intro pre
  induction pre with
  | nil =>
    intro _
    simp [mdb_reader_list_model, lmdb_msg, hl]
  | cons a rest ih =>
    intro h
    have ha : cb a = true := h a (by simp)
    have hrest : ∀ x ∈ rest, cb x = true := fun x hx => h x (by simp [hx])
    simp [mdb_reader_list_model, lmdb_msg, ha, ih hrest]

/-- C1: the claim states that every public operation on a dead handle
returns the defined failure result without invoking the native layer; at
the concrete input txn:id on a closed transaction the code instead
invokes mdb_txn_id and pushes an integer, never a failure triple, so the
claim is false. -/
theorem C1_counterexample :
    ¬ ((lmdb_txn_id (fun _ => 0) { txn := none, env_ref := -2 }).1.isErr = true
       ∧ countNative (lmdb_txn_id (fun _ => 0) { txn := none, env_ref := -2 }).2 = 0) := by
  decide

/-- C1 (amended): the environment operations stat, info, copy and sync do
check the env liveness flag and on a dead environment return the EINVAL
failure triple without any native call; but txn:id, dbi:get/put/del and
cursor:get/put/del/count perform no liveness check at all: each always
issues exactly one native call, passing the (possibly cleared) resource,
and txn:id on a dead transaction still returns an integer. -/
theorem C1_liveness (strerror : Int → String)
    (nStat nInfo nCopy : Nat → Int) (nSync : Nat → Bool → Int)
    (nId : Option Nat → Int)
    (nGet : Option Nat → Nat → Bytes → Int × Bytes)
    (nPut : Option Nat → Nat → Bytes → Bytes → Int)
    (nDel : Option Nat → Nat → Bytes → Int)
    (cGet : Option Nat → Int → Int × Bytes × Bytes)
    (cPut : Option Nat → Bytes → Bytes → Int → Int)
    (cDel : Option Nat → Int → Int)
    (cCount : Option Nat → Int × Nat)
    (e : lmdb_env) (t : lmdb_txn) (d : lmdb_dbi) (c : lmdb_cursor)
    (key v : Bytes) (op? fl? : Option Int)
    (he : e.env = none) (ht : t.txn = none) (hc : c.cursor = none) :
    lmdb_stat strerror nStat e = (TableRet.err { msg := strerror EINVAL, code := EINVAL }, [])
    ∧ lmdb_info strerror nInfo e = (TableRet.err { msg := strerror EINVAL, code := EINVAL }, [])
    ∧ lmdb_copy strerror nCopy e = (SelfRet.err { msg := strerror EINVAL, code := EINVAL }, [])
    ∧ lmdb_sync strerror nSync e true = (SelfRet.err { msg := strerror EINVAL, code := EINVAL }, [])
    ∧ (lmdb_txn_id nId t).2 = [Event.nativeCall "mdb_txn_id" false]
    ∧ (lmdb_txn_id nId t).1 = IntRet.val (nId none)
    ∧ (lmdb_get strerror nGet d key).2 = [Event.nativeCall "mdb_get" (d.dbi != 0)]
    ∧ (lmdb_put strerror nPut d key v).2 = [Event.nativeCall "mdb_put" (d.dbi != 0)]
    ∧ (lmdb_del strerror nDel d key).2 = [Event.nativeCall "mdb_del" (d.dbi != 0)]
    ∧ (lmdb_cursor_get strerror cGet c op?).2 = [Event.nativeCall "mdb_cursor_get" false]
    ∧ (lmdb_cursor_put strerror cPut c key v fl?).2 = [Event.nativeCall "mdb_cursor_put" false]
    ∧ (lmdb_cursor_del strerror cDel c fl?).2 = [Event.nativeCall "mdb_cursor_del" false]
    ∧ (lmdb_cursor_count strerror cCount c).2 = [Event.nativeCall "mdb_cursor_count" false] := by
  refine ⟨?_, ?_, ?_, ?_, ?_, ?_, rfl, rfl, rfl, ?_, ?_, ?_, ?_⟩ <;>
    simp [lmdb_stat, lmdb_info, lmdb_copy, lmdb_sync, lmdb_txn_id, lmdb_get,
      lmdb_put, lmdb_del, lmdb_cursor_get, lmdb_cursor_put, lmdb_cursor_del,
      lmdb_cursor_count, lmdb_pusherror, he, ht, hc]

/-- C1 witness: the amended theorem applied to concrete dead handles. -/
theorem C1_liveness_witness :
    deadEnv.env = none ∧ deadTxn.txn = none ∧ deadCursor.cursor = none
    ∧ lmdb_stat mdb_strerror_model (fun _ => 0) deadEnv
        = (TableRet.err { msg := mdb_strerror_model EINVAL, code := EINVAL }, [])
    ∧ (lmdb_txn_id (fun _ => 0) deadTxn).2 = [Event.nativeCall "mdb_txn_id" false] :=
  have h := C1_liveness mdb_strerror_model (fun _ => 0) (fun _ => 0) (fun _ => 0)
    (fun _ _ => 0) (fun _ => 0) (fun _ _ _ => (0, [])) (fun _ _ _ _ => 0)
    (fun _ _ _ => 0) (fun _ _ => (0, [], [])) (fun _ _ _ _ => 0) (fun _ _ => 0)
    (fun _ => (0, 0)) deadEnv deadTxn deadDbi deadCursor [] [] none none rfl rfl rfl
  ⟨rfl, rfl, rfl, h.1, h.2.2.2.2.1⟩

/-- C2: the claim states that after open, begin and commit, a subsequent
reset on the same handle fails with the failure triple; at the concrete
input the code instead pushes the handle itself (mdb_txn_reset returns
void and lmdb_txn_reset has no error path), so the claim is false. -/
theorem C2_counterexample :
    ¬ ((lmdb_txn_reset
          (lmdb_txn_commit mdb_strerror_model nativeCommitOk
            { txn := some 7, env_ref := 5 }).1).2.1.isErr = true) := by
  decide

/-- C2 (amended): for open, begin, commit, the transaction resource and
its environment anchor are released exactly once: begin acquires one
anchor, the first commit succeeds and performs the single release, a
second commit fails with the failure triple built from the engine status
for the cleared resource and releases nothing, abort after commit
releases nothing and raises nothing, and reset after commit returns the
handle itself (not a failure) and releases nothing. -/
theorem C2_lifecycle (strerror : Int → String) (nBegin : Option Nat → Int × Nat)
    (nCommit : Option Nat → Int) (e : lmdb_env) (tok : Nat)
    (hb : (nBegin e.env).1 = 0)
    (hcm : nCommit (some (nBegin e.env).2) = 0)
    (hn : nCommit none ≠ 0) :
    (lmdb_txn_begin strerror nBegin e tok).1
      = BeginRet.txnObj { txn := some (nBegin e.env).2, env_ref := Int.ofNat tok }
    ∧ countAcquire (lmdb_txn_begin strerror nBegin e tok).2 = 1
    ∧ countRelease (lmdb_txn_begin strerror nBegin e tok).2 = 0
    ∧ (lmdb_txn_commit strerror nCommit
        { txn := some (nBegin e.env).2, env_ref := Int.ofNat tok }).1
      = { txn := none, env_ref := LUA_NOREF }
    ∧ (lmdb_txn_commit strerror nCommit
        { txn := some (nBegin e.env).2, env_ref := Int.ofNat tok }).2.1 = CommitRet.ok
    ∧ countRelease (lmdb_txn_commit strerror nCommit
        { txn := some (nBegin e.env).2, env_ref := Int.ofNat tok }).2.2 = 1
    ∧ (lmdb_txn_commit strerror nCommit { txn := none, env_ref := LUA_NOREF }).2.1
      = CommitRet.fail { msg := strerror (nCommit none), code := nCommit none }
    ∧ (lmdb_txn_commit strerror nCommit { txn := none, env_ref := LUA_NOREF }).1
      = { txn := none, env_ref := LUA_NOREF }
    ∧ countRelease (lmdb_txn_commit strerror nCommit
        { txn := none, env_ref := LUA_NOREF }).2.2 = 0
    ∧ (lmdb_txn_abort { txn := none, env_ref := LUA_NOREF }).1
      = { txn := none, env_ref := LUA_NOREF }
    ∧ countRelease (lmdb_txn_abort { txn := none, env_ref := LUA_NOREF }).2 = 0
    ∧ (lmdb_txn_reset { txn := none, env_ref := LUA_NOREF }).2.1 = SelfRet.self
    ∧ countRelease (lmdb_txn_reset { txn := none, env_ref := LUA_NOREF }).2.2 = 0 := by
  refine ⟨?_, ?_, ?_, ?_, ?_, ?_, ?_, ?_, ?_, rfl, rfl, rfl, rfl⟩ <;>
    simp [lmdb_txn_begin, lmdb_txn_commit, lmdb_txn_close, lmdb_pusherror,
      countAcquire, countRelease, Event.isAcquire, Event.isRelease, hb, hcm, hn]

/-- C2 witness: the amended theorem applied to a live environment with the
modelled engine. -/
theorem C2_lifecycle_witness :
    (nativeBeginOk liveEnv1.env).1 = 0
    ∧ nativeCommitOk (some (nativeBeginOk liveEnv1.env).2) = 0
    ∧ nativeCommitOk none ≠ 0
    ∧ (lmdb_txn_reset { txn := none, env_ref := LUA_NOREF }).2.1 = SelfRet.self :=
  have h := C2_lifecycle mdb_strerror_model nativeBeginOk nativeCommitOk liveEnv1 5
    rfl rfl (by decide)
  ⟨rfl, rfl, by decide, h.2.2.2.2.2.2.2.2.2.2.2.1⟩

/-- C3: the claim states that dbi:get maps a missing key to a plain
not-found result distinct from the failure triple; at the concrete input
where the engine reports MDB_NOTFOUND the code returns exactly the
failure triple built by lmdb_pusherror, so the claim is false. -/
theorem C3_counterexample :
    ¬ ((lmdb_get mdb_strerror_model notFoundGet
          { dbi := 1, txn := some 1, txn_ref := 3 } [107]).1
        ≠ GetRet.err { msg := mdb_strerror_model MDB_NOTFOUND, code := MDB_NOTFOUND }) := by
  decide

/-- C3 (amended): dbi:get surfaces every non-zero native status, the
MDB_NOTFOUND case included, as the failure triple with the translator
message and the unchanged code; there is no not-found special case. -/
theorem C3_get_error_shape (strerror : Int → String)
    (nGet : Option Nat → Nat → Bytes → Int × Bytes) (d : lmdb_dbi) (key : Bytes)
    (hrc : (nGet d.txn d.dbi key).1 ≠ 0) :
    (lmdb_get strerror nGet d key).1
      = GetRet.err { msg := strerror (nGet d.txn d.dbi key).1,
                     code := (nGet d.txn d.dbi key).1 } := by
  simp [lmdb_get, lmdb_pusherror, hrc]

/-- C3 witness: the amended theorem applied at a NOTFOUND-reporting
engine. -/
theorem C3_get_error_shape_witness :
    (notFoundGet (some 1) 1 [107]).1 ≠ 0
    ∧ (lmdb_get mdb_strerror_model notFoundGet
        { dbi := 1, txn := some 1, txn_ref := 3 } [107]).1
      = GetRet.err { msg := mdb_strerror_model MDB_NOTFOUND, code := MDB_NOTFOUND } :=
  ⟨by decide,
   C3_get_error_shape mdb_strerror_model notFoundGet
     { dbi := 1, txn := some 1, txn_ref := 3 } [107] (by decide)⟩

/-- C4: the claim states that teardown of an already-closed handle of any
kind performs no native call; for a Transaction (abort after commit) the
code calls mdb_txn_abort again, passing the cleared NULL resource, so
the claim is false at this concrete input. -/
theorem C4_counterexample :
    ¬ (countNative (lmdb_txn_abort
          (lmdb_txn_commit mdb_strerror_model nativeCommitOk
            { txn := some 7, env_ref := 5 }).1).2 = 0) := by
  decide

/-- C4 (amended): closing an already-closed Environment, Table or Cursor
is a strict no-op (no error, no native call, no anchor release); abort
on an already-closed Transaction raises nothing and releases no anchor,
but does invoke the native abort once more with the null resource, which
the engine defines as a no-op. -/
theorem C4_idempotent_teardown (e : lmdb_env) (d : lmdb_dbi) (c : lmdb_cursor)
    (t : lmdb_txn) (txnLive : Bool)
    (he : e.env = none) (hd : d.dbi = 0) (hcu : c.cursor = none) (ht : t.txn = none) :
    lmdb_close e = (e, [])
    ∧ lmdb_dbi_close d txnLive = (d, [])
    ∧ lmdb_cursor_close c = (c, [])
    ∧ (lmdb_txn_abort t).1 = t
    ∧ countRelease (lmdb_txn_abort t).2 = 0
    ∧ (lmdb_txn_abort t).2 = [Event.nativeCall "mdb_txn_abort" false] := by
  refine ⟨?_, ?_, ?_, ?_, ?_, ?_⟩ <;>
    simp [lmdb_close, lmdb_dbi_close, lmdb_cursor_close, lmdb_txn_abort,
      lmdb_txn_close, countRelease, Event.isRelease, he, hd, hcu, ht]

/-- C4 witness: the amended theorem applied to concrete closed handles. -/
theorem C4_idempotent_teardown_witness :
    deadEnv.env = none ∧ deadDbi.dbi = 0 ∧ deadCursor.cursor = none ∧ deadTxn.txn = none
    ∧ lmdb_close deadEnv = (deadEnv, [])
    ∧ (lmdb_txn_abort deadTxn).2 = [Event.nativeCall "mdb_txn_abort" false] :=
  have h := C4_idempotent_teardown deadEnv deadDbi deadCursor deadTxn true rfl rfl rfl rfl
  ⟨rfl, rfl, rfl, rfl, h.1, h.2.2.2.2.2⟩

/-- C5: for each of the three child constructors, a failing native open
yields exactly the failure triple with a trace containing only the
native call, hence no registry anchor and no class tag; a succeeding
native open installs exactly one anchor and one tag. -/
theorem C5_construction (strerror : Int → String)
    (nBegin : Option Nat → Int × Nat) (nDbiOpen : Option Nat → Int × Nat)
    (nCurOpen : Option Nat → Nat → Int × Nat)
    (e : lmdb_env) (t : lmdb_txn) (d : lmdb_dbi) (tok1 tok2 tok3 : Nat) :
    ((nBegin e.env).1 ≠ 0 →
      lmdb_txn_begin strerror nBegin e tok1
        = (BeginRet.fail { msg := strerror (nBegin e.env).1, code := (nBegin e.env).1 },
           [Event.nativeCall "mdb_txn_begin" e.env.isSome]))
    ∧ ((nBegin e.env).1 = 0 →
        countAcquire (lmdb_txn_begin strerror nBegin e tok1).2 = 1
        ∧ countTag (lmdb_txn_begin strerror nBegin e tok1).2 = 1)
    ∧ ((nDbiOpen t.txn).1 ≠ 0 →
      lmdb_dbi_open strerror nDbiOpen t tok2
        = (DbiOpenRet.fail { msg := strerror (nDbiOpen t.txn).1, code := (nDbiOpen t.txn).1 },
           [Event.nativeCall "mdb_dbi_open" t.txn.isSome]))
    ∧ ((nDbiOpen t.txn).1 = 0 →
        countAcquire (lmdb_dbi_open strerror nDbiOpen t tok2).2 = 1
        ∧ countTag (lmdb_dbi_open strerror nDbiOpen t tok2).2 = 1)
    ∧ ((nCurOpen d.txn d.dbi).1 ≠ 0 →
      lmdb_cursor_open strerror nCurOpen d tok3
        = (CursorOpenRet.fail { msg := strerror (nCurOpen d.txn d.dbi).1,
                                code := (nCurOpen d.txn d.dbi).1 },
           [Event.nativeCall "mdb_cursor_open" (d.dbi != 0)]))
    ∧ ((nCurOpen d.txn d.dbi).1 = 0 →
        countAcquire (lmdb_cursor_open strerror nCurOpen d tok3).2 = 1
        ∧ countTag (lmdb_cursor_open strerror nCurOpen d tok3).2 = 1) := by
  refine ⟨fun h => ?_, fun h => ?_, fun h => ?_, fun h => ?_, fun h => ?_, fun h => ?_⟩ <;>
    simp [lmdb_txn_begin, lmdb_dbi_open, lmdb_cursor_open, lmdb_pusherror,
      countAcquire, countTag, Event.isAcquire, Event.isTag, h]

/-- C5 witness: the theorem applied to a failing and to a succeeding
native open. -/
theorem C5_construction_witness :
    (nativeOpenFail liveEnv1.env).1 ≠ 0
    ∧ lmdb_txn_begin mdb_strerror_model nativeOpenFail liveEnv1 4
        = (BeginRet.fail { msg := mdb_strerror_model EINVAL, code := EINVAL },
           [Event.nativeCall "mdb_txn_begin" true])
    ∧ (nativeBeginOk liveEnv1.env).1 = 0
    ∧ countAcquire (lmdb_txn_begin mdb_strerror_model nativeBeginOk liveEnv1 4).2 = 1 :=
  have hf := (C5_construction mdb_strerror_model nativeOpenFail nativeOpenFail
      (fun _ _ => (EINVAL, 0)) liveEnv1 deadTxn deadDbi 4 4 4).1 (by decide)
  have hs := (C5_construction mdb_strerror_model nativeBeginOk nativeBeginOk
      (fun _ _ => (0, 1)) liveEnv1 deadTxn deadDbi 4 4 4).2.1 rfl
  ⟨by decide, hf, rfl, hs.1⟩

/-- C6: the trampoline maps a failing callback to the abort signal -1; a
callback that succeeds on every line lets the native iteration finish
and reader_list returns self; a callback that fails on its first reached
line makes reader_list return the failure triple; and in every case the
anchor for the callback is acquired once and released exactly once,
directly after the native call returns. -/
theorem C6_reader_list (strerror : Int → String) (lines : List String)
    (cb : String → Bool) (tok : Nat) :
    (lmdb_reader_list strerror lines cb tok).2
        = [Event.refAcquire tok, Event.nativeCall "mdb_reader_list" true,
           Event.refRelease (Int.ofNat tok)]
    ∧ countAcquire (lmdb_reader_list strerror lines cb tok).2 = 1
    ∧ countRelease (lmdb_reader_list strerror lines cb tok).2 = 1
    ∧ (∀ l, cb l = false → lmdb_msg cb l = -1)
    ∧ ((∀ l ∈ lines, cb l = true) →
        (lmdb_reader_list strerror lines cb tok).1 = SelfRet.self)
    ∧ (∀ pre l post, lines = pre ++ l :: post → (∀ x ∈ pre, cb x = true) →
        cb l = false →
        (lmdb_reader_list strerror lines cb tok).1
          = SelfRet.err { msg := strerror (-1), code := -1 }) := by
  refine ⟨rfl, rfl, rfl, ?_, ?_, ?_⟩
  · intro l hl
    simp [lmdb_msg, hl]
  · intro h
    simp [lmdb_reader_list, readerListModel_all_ok cb lines h]
  · intro pre l post hsplit hpre hl
    subst hsplit
    simp [lmdb_reader_list, readerListModel_abort cb l post hl pre hpre, lmdb_pusherror]

/-- C6 witness: the theorem applied to an always-succeeding and to a
failing callback over two reader lines. -/
theorem C6_reader_list_witness :
    (lmdb_reader_list mdb_strerror_model ["r1", "r2"] (fun _ => true) 9).1 = SelfRet.self
    ∧ (fun s => s == "r1") "r2" = false
    ∧ (lmdb_reader_list mdb_strerror_model ["r1", "r2"] (fun s => s == "r1") 9).1
      = SelfRet.err { msg := mdb_strerror_model (-1), code := -1 } :=
  have h1 := (C6_reader_list mdb_strerror_model ["r1", "r2"] (fun _ => true) 9).2.2.2.2.1
    (by intro l _; rfl)
  have h2 := (C6_reader_list mdb_strerror_model ["r1", "r2"] (fun s => s == "r1") 9).2.2.2.2.2
    ["r1"] "r2" [] rfl (by decide) (by decide)
  ⟨h1, by decide, h2⟩

/-- C7 (code bug): env:copy on a live environment whose native copy fails
with status 2 still returns the handle itself, never the failure triple
the spec and the function's own doc comment require; env:sync discards
its native status the same way. -/
theorem C7_copy_ignores_status :
    (lmdb_copy mdb_strerror_model (fun _ => 2) liveEnv1).1 = SelfRet.self
    ∧ (lmdb_copy mdb_strerror_model (fun _ => 2) liveEnv1).1.isErr = false
    ∧ (lmdb_sync mdb_strerror_model (fun _ _ => 2) liveEnv1 true).1 = SelfRet.self := by
  decide

/-- C8: put followed by get on the same key within the same transaction
returns exactly the stored value, byte for byte, for arbitrary byte
strings including ones with embedded zero bytes (Bytes carries the
length explicitly, mirroring luaL_checklstring / lua_pushlstring). -/
theorem C8_put_get_roundtrip (strerror : Int → String) (d : lmdb_dbi)
    (s : Store) (k v : Bytes) :
    (lmdb_put strerror (fun _ _ _ _ => 0) d k v).1 = SelfRet.self
    ∧ (lmdb_get strerror (nativeGetOf (storePut s k v)) d k).1 = GetRet.val v := by
  constructor
  · rfl
  · simp [lmdb_get, nativeGetOf, storePut, storeGet]

/-- C9: dbi_methods binds the name flags twice; the registration loop
raw-sets entries in order, so the later binding (lmdb_dbi_drop)
overwrites the earlier query binding, dbi:flags() resolves to the drop
function, and lmdb_dbi_flags is reachable under no registered name in
either the __index table or the metatable. -/
theorem C9_flags_shadowed :
    (dbi_methods.filter (fun p => p.1 == "flags")).length = 2
    ∧ (dbi_methods.filter (fun p => p.1 == "flags")).map Prod.snd
        = [CFun.flags_query, CFun.drop]
    ∧ tableLookup (auxiliar_newclass dbi_methods).it "flags" = some CFun.drop
    ∧ (auxiliar_newclass dbi_methods).it.all (fun p => p.2 != CFun.flags_query) = true
    ∧ (auxiliar_newclass dbi_methods).mt.all (fun p => p.2 != CFun.flags_query) = true := by
  decide

/-- C10: cursor:get with no positioning operator behaves exactly as with
MDB_NEXT, for every engine behaviour and every cursor state; against the
modelled iterator an argument-free get returns the entry at the current
position and advances it, so repeated argument-free calls iterate
forward. -/
theorem C10_cursor_get_default (strerror : Int → String)
    (native : Option Nat → Int → Int × Bytes × Bytes) (c : lmdb_cursor)
    (st : CursorState) (kv : Bytes × Bytes)
    (hlive : c.cursor.isSome = true) (hnext : st.entries[st.pos]? = some kv) :
    lmdb_cursor_get strerror native c none
      = lmdb_cursor_get strerror native c (some MDB_NEXT)
    ∧ (∀ st2 : CursorState,
        lmdb_cursor_get_run strerror c st2 none
          = lmdb_cursor_get_run strerror c st2 (some MDB_NEXT))
    ∧ lmdb_cursor_get_run strerror c st none
        = (KVRet.kv kv.1 kv.2, { st with pos := st.pos + 1 }) := by
  refine ⟨rfl, fun st2 => rfl, ?_⟩
  obtain ⟨r, hr⟩ := Option.isSome_iff_exists.mp hlive
  simp [lmdb_cursor_get_run, hr, mdb_cursor_get_model, MDB_NEXT, MDB_FIRST, hnext]

/-- A live cursor and a three-entry table for the C10 witness. -/
def curLive : lmdb_cursor := { cursor := some 1, dbi_ref := 3 }

def st3 : CursorState :=
  { entries := [([97], [49]), ([98], [50]), ([99], [51])], pos := 0 }

/-- C10 witness: the theorem applied to a live cursor positioned before
the first of three entries. -/
theorem C10_cursor_get_default_witness :
    curLive.cursor.isSome = true
    ∧ st3.entries[st3.pos]? = some ([97], [49])
    ∧ lmdb_cursor_get_run mdb_strerror_model curLive st3 none
      = (KVRet.kv [97] [49], { entries := st3.entries, pos := 1 }) :=
  have h := C10_cursor_get_default mdb_strerror_model (fun _ _ => (0, [], []))
    curLive st3 ([97], [49]) rfl rfl
  ⟨rfl, rfl, h.2.2⟩

end LmdbSpec
